import Mathlib

/-!
Shallow embedding of the expense-manager server core
(`src/server/src/handlers/analytics.ts`, `expenses.ts`, `budgets.ts`,
`teams.ts`, and the drizzle/zod schema in `src/server/src/db/schema.ts`).

Conventions of the embedding:
* SQL `numeric` amounts are `Rat` (exact decimal arithmetic; the JS code
  works on IEEE doubles, which agree with `Rat` on the 2-fractional-digit
  decimals the schema stores for arithmetic without rounding).
* `date` columns are `Nat` encoded as YYYYMMDD.  String comparison of
  `YYYY-MM-DD` literals (what the SQL layer does) coincides with `Nat`
  order under this encoding, and the `TO_CHAR(date, 'YYYY-MM')` month key
  is `d / 100`.
* role columns are `String`, exactly as the handlers compare them.
* the database is a record of lists of rows; fallible handlers return
  `Except`, and a handler that returns `.error` has inserted/updated
  nothing (in the source every write happens after all checks pass).
* columns never read by any of the modelled handlers (receipt_url, tags,
  notes, timestamps, …) are omitted from the row types.
-/

inductive ExpenseStatus where
  | draft
  | pending
  | approved
  | rejected
  | paid
deriving DecidableEq, Repr

inductive BudgetPeriod where
  | monthly
  | yearly
deriving DecidableEq, Repr

structure User where
  id : Nat
  role : String
deriving DecidableEq, Repr

structure Team where
  id : Nat
  manager_id : Nat
deriving DecidableEq, Repr

structure TeamMember where
  team_id : Nat
  user_id : Nat
deriving DecidableEq, Repr

structure Category where
  id : Nat
  name : String
deriving DecidableEq, Repr

structure Expense where
  id : Nat
  user_id : Nat
  category_id : Nat
  amount : Rat
  description : String
  expense_date : Nat
  status : ExpenseStatus
  approved_by : Option Nat
  approved_at : Option Nat
  team_id : Option Nat
deriving DecidableEq, Repr

structure Budget where
  id : Nat
  user_id : Nat
  category_id : Option Nat
  amount : Rat
  period : BudgetPeriod
  start_date : Nat
  end_date : Nat
  alert_threshold : Rat
  is_active : Bool
deriving DecidableEq, Repr

/-- The data store: one list of rows per table used by the modelled
handlers. -/
structure DB where
  users : List User
  teams : List Team
  teamMembers : List TeamMember
  categories : List Category
  expenses : List Expense
  budgets : List Budget
deriving DecidableEq, Repr

/-! ## Analytics (`getExpenseAnalytics`, analytics.ts lines 6–131) -/

structure CategoryBreakdownEntry where
  category_name : String
  amount : Rat
  percentage : Rat
deriving DecidableEq, Repr

structure MonthlyTrendEntry where
  month : Nat
  amount : Rat
deriving DecidableEq, Repr

structure BudgetVsActual where
  budget_amount : Rat
  actual_amount : Rat
  variance : Rat
  variance_percentage : Rat
deriving DecidableEq, Repr

structure ExpenseAnalytics where
  total_amount : Rat
  expense_count : Nat
  avg_expense : Rat
  category_breakdown : List CategoryBreakdownEntry
  monthly_trend : List MonthlyTrendEntry
  budget_vs_actual : BudgetVsActual
deriving DecidableEq, Repr

/-- analytics.ts lines 21–26: ids of the teams whose `manager_id` is the
acting user. -/
def managedTeamIds (db : DB) (userId : Nat) : List Nat :=
  (db.teams.filter (fun t => t.manager_id == userId)).map (fun t => t.id)

/-- analytics.ts lines 18–39: the role-based part of the expense `WHERE`
clause of the query that actually runs.  The manager branch builds
`user_id = userId OR team_id IN (…)` when the manager manages at least
one team, and plain ownership otherwise; a SQL `IN` never matches a
NULL `team_id`.  The source string-joins the managed team ids into ONE
bound parameter of the sql template, so the `IN` casts and runs exactly
when a single id is bound: for zero managed teams the else branch runs,
for one team the parameter casts to that id and `IN` is membership in
the singleton — which this predicate captures — and for two or more
teams the cast of "id1,id2" raises, the query never filters, and
`getExpenseAnalytics` throws: that failure is modelled by
`runGetExpenseAnalytics`, not by this row predicate. -/
def expenseScopeCond (db : DB) (userId : Nat) (userRole : String) (e : Expense) : Bool :=
  if userRole = "admin" then
    true
  else if userRole = "manager" then
    let teamIdList := managedTeamIds db userId
    if teamIdList.length > 0 then
      e.user_id == userId ||
        (match e.team_id with
          | some t => teamIdList.contains t
          | none => false)
    else
      e.user_id == userId
  else
    e.user_id == userId

/-- analytics.ts lines 14–15: `expense_date BETWEEN startDate AND endDate`. -/
def dateCond (startD endD : Nat) (e : Expense) : Bool :=
  decide (startD ≤ e.expense_date) && decide (e.expense_date ≤ endD)

/-- The full expense `WHERE` clause shared by every expense query of
`getExpenseAnalytics`. -/
def expenseCond (db : DB) (userId : Nat) (userRole : String) (startD endD : Nat)
    (e : Expense) : Bool :=
  dateCond startD endD e && expenseScopeCond db userId userRole e

/-- The expense rows every aggregate of `getExpenseAnalytics` ranges over. -/
def filteredExpenses (db : DB) (userId : Nat) (userRole : String) (startD endD : Nat) :
    List Expense :=
  db.expenses.filter (expenseCond db userId userRole startD endD)

/-- `SUM(amount)` with SQL's `NULL`-as-0 reading of an empty sum
(`parseFloat(… || '0')`). -/
def totalAmountOf (es : List Expense) : Rat :=
  (es.map (fun e => e.amount)).sum

/-- analytics.ts line 60: the inner join of an expense with its category
row, projected to the category name; `none` when no category row matches. -/
def expenseCategoryName (cats : List Category) (e : Expense) : Option String :=
  (cats.find? (fun c => c.id == e.category_id)).map (fun c => c.name)

/-- The distinct category names present among the joined expense rows
(the `GROUP BY categories.name` keys). -/
def breakdownKeys (cats : List Category) (es : List Expense) : List String :=
  (es.filterMap (expenseCategoryName cats)).dedup

/-- `SUM(amount)` of the group of one category name. -/
def categoryAmount (cats : List Category) (es : List Expense) (name : String) : Rat :=
  totalAmountOf (es.filter (fun e => expenseCategoryName cats e == some name))

/-- analytics.ts lines 55–69: category breakdown with the
`totalAmount > 0 ? amount / totalAmount * 100 : 0` percentage policy. -/
def categoryBreakdown (cats : List Category) (es : List Expense) (total : Rat) :
    List CategoryBreakdownEntry :=
  (breakdownKeys cats es).map (fun n =>
    { category_name := n
      amount := categoryAmount cats es n
      percentage := if 0 < total then categoryAmount cats es n / total * 100 else 0 })

/-- `TO_CHAR(expense_date, 'YYYY-MM')` under the YYYYMMDD encoding. -/
def monthKey (e : Expense) : Nat :=
  e.expense_date / 100

/-- Insert into an ascending list (ORDER BY of the month keys). -/
def insertAsc (x : Nat) : List Nat → List Nat
  | [] => [x]
  | y :: ys => if x ≤ y then x :: y :: ys else y :: insertAsc x ys

/-- Ascending insertion sort for the month keys. -/
def sortAsc : List Nat → List Nat
  | [] => []
  | x :: xs => insertAsc x (sortAsc xs)

/-- analytics.ts lines 72–85: monthly trend, one entry per month present,
ordered ascending by month key. -/
def monthlyTrend (es : List Expense) : List MonthlyTrendEntry :=
  (sortAsc ((es.map monthKey).dedup)).map (fun m =>
    { month := m
      amount := totalAmountOf (es.filter (fun e => monthKey e == m)) })

/-- analytics.ts lines 89–100: the budget `WHERE` clause — ownership for
non-admins, period overlap with the requested range, and `is_active`. -/
def budgetCond (userId : Nat) (userRole : String) (startD endD : Nat) (b : Budget) : Bool :=
  (if userRole = "admin" then true else b.user_id == userId)
    && decide (b.start_date ≤ endD) && decide (startD ≤ b.end_date) && b.is_active

/-- analytics.ts lines 102–125: budget-vs-actual block with the
`budgetAmount > 0 ? … : 0` variance-percentage policy. -/
def budgetVsActual (bs : List Budget) (total : Rat) : BudgetVsActual :=
  let budgetAmount := (bs.map (fun b => b.amount)).sum
  let variance := total - budgetAmount
  { budget_amount := budgetAmount
    actual_amount := total
    variance := variance
    variance_percentage := if 0 < budgetAmount then variance / budgetAmount * 100 else 0 }

/-- The aggregation body of `getExpenseAnalytics`, as a function of the
filtered expense rows, the filtered budget rows and the category table. -/
def analyticsOf (cats : List Category) (es : List Expense) (bs : List Budget) :
    ExpenseAnalytics :=
  let total := totalAmountOf es
  let cnt := es.length
  { total_amount := total
    expense_count := cnt
    avg_expense := if 0 < cnt then total / (cnt : Rat) else 0
    category_breakdown := categoryBreakdown cats es total
    monthly_trend := monthlyTrend es
    budget_vs_actual := budgetVsActual (bs) total }

/-- analytics.ts lines 6–131: the role-scoped aggregation the handler
computes when its queries run (see `runGetExpenseAnalytics` for the
handler's outcome including the manager-branch parameter-binding
failure). -/
def getExpenseAnalytics (db : DB) (userId : Nat) (userRole : String) (startD endD : Nat) :
    ExpenseAnalytics :=
  analyticsOf db.categories (filteredExpenses db userId userRole startD endD)
    (db.budgets.filter (budgetCond userId userRole startD endD))

/-- The handler's actual outcome.  analytics.ts line 30 interpolates the
string-joined managed team ids as a single bound parameter of
`team_id IN (…)`; with two or more managed teams postgres cannot cast
"id1,id2" to integer, every expense query of the call raises, and the
handler rethrows.  Otherwise (admin, user, or a manager with at most
one managed team) the queries run and the aggregation is returned. -/
def runGetExpenseAnalytics (db : DB) (userId : Nat) (userRole : String) (startD endD : Nat) :
    Except String ExpenseAnalytics :=
  if userRole = "manager" ∧ 2 ≤ (managedTeamIds db userId).length then
    .error "invalid input syntax for type integer"
  else
    .ok (getExpenseAnalytics db userId userRole startD endD)

/-! ## Expense lifecycle machine

`approveExpense` (expenses.ts lines 112–135 and approve_expense.ts) and
`updateExpense` (expenses.ts lines 80–103 and update_expense.ts) are
placeholder declarations in the repository ("Real code should be
implemented here"), so the lifecycle machine itself is modelled from the
spec (§4.2, §5, §7). -/

inductive LifecycleError where
  | invalidTransition (current requested : ExpenseStatus)
  | unauthorized
  | conflict (current : ExpenseStatus)
deriving DecidableEq, Repr

/-- Modelled from the spec: the §4.2 transition graph of the Expense
Lifecycle Machine (`approveExpense`/`updateExpense` are placeholder
declarations in the source).  Exactly draft→pending, pending→approved,
pending→rejected, approved→paid and rejected→draft are edges. -/
def validTransition : ExpenseStatus → ExpenseStatus → Bool
  | .draft, .pending => true
  | .pending, .approved => true
  | .pending, .rejected => true
  | .approved, .paid => true
  | .rejected, .draft => true
  | _, _ => false

/-- Modelled from the spec: the per-edge field effects of §4.2 —
entering approved/rejected sets `approved_by`/`approved_at` together,
rejected→draft clears both, the other edges leave them untouched. -/
def applyTransition (e : Expense) (to_ : ExpenseStatus) (actorId now : Nat) : Expense :=
  match e.status, to_ with
  | .pending, .approved =>
      { e with status := to_, approved_by := some actorId, approved_at := some now }
  | .pending, .rejected =>
      { e with status := to_, approved_by := some actorId, approved_at := some now }
  | .rejected, .draft =>
      { e with status := to_, approved_by := none, approved_at := none }
  | _, _ => { e with status := to_ }

/-- Modelled from the spec: a lifecycle transition request (§4.2): a
requested pair outside the transition graph fails with
`InvalidTransition` carrying the current and requested state, and no
write happens (an `.error` result leaves the stored record as it was). -/
def requestTransition (e : Expense) (to_ : ExpenseStatus) (actorId now : Nat) :
    Except LifecycleError Expense :=
  if validTransition e.status to_ then
    .ok (applyTransition e to_ actorId now)
  else
    .error (.invalidTransition e.status to_)

/-- Modelled from the spec: `approveExpense` as the single conditional
update required by §5 — a compare-and-swap on the current status.  The
approver acts on the status it `observed`; if the stored status no
longer equals it the attempt lost the race and fails with `Conflict`,
otherwise the guard and write happen as one atomic step. -/
def approveExpense (e : Expense) (observed to_ : ExpenseStatus) (approverId now : Nat) :
    Except LifecycleError Expense :=
  if e.status = observed then
    requestTransition e to_ approverId now
  else
    .error (.conflict e.status)

/-- The §3 record invariant: `approved_by` and `approved_at` are both
set or both unset, and both are unset while status is draft or pending. -/
def approvalInvariant (e : Expense) : Prop :=
  (e.approved_by.isSome ↔ e.approved_at.isSome)
    ∧ ((e.status = .draft ∨ e.status = .pending) →
        e.approved_by = none ∧ e.approved_at = none)

/-! ## createExpense (expenses.ts lines 6–62, real code) -/

structure CreateExpenseInput where
  category_id : Nat
  amount : Rat
  description : String
  expense_date : Nat
  team_id : Option Nat
deriving DecidableEq, Repr

/-- expenses.ts lines 6–62: verify the category exists, verify the team
exists when one is given, then insert with `status: 'draft'` and without
the approval columns (their schema default is NULL).  The row id is the
store's serial; the model allocates it from the current table length. -/
def createExpense (db : DB) (input : CreateExpenseInput) (userId : Nat) :
    Except String Expense :=
  if (db.categories.find? (fun c => c.id == input.category_id)).isNone then
    .error "Category does not exist"
  else if (input.team_id.any (fun tid => (db.teams.find? (fun t => t.id == tid)).isNone)) then
    .error "Team does not exist"
  else
    .ok
      { id := db.expenses.length + 1
        user_id := userId
        category_id := input.category_id
        amount := input.amount
        description := input.description
        expense_date := input.expense_date
        status := .draft
        approved_by := none
        approved_at := none
        team_id := input.team_id }

/-- Modelled from the spec: `updateExpense` is a placeholder declaration
in the source; §4.2 lets the owner mutate amount/category/description
only while status is draft or rejected, and an update never touches the
status or the approval columns. -/
def updateExpense (e : Expense) (amount : Rat) (categoryId : Nat) (descr : String) :
    Except LifecycleError Expense :=
  if e.status = .draft ∨ e.status = .rejected then
    .ok { e with amount := amount, category_id := categoryId, description := descr }
  else
    .error .unauthorized

/-! ## Budgets (db/schema.ts lines 428–437 and budgets.ts lines 6–59) -/

structure CreateBudgetInput where
  category_id : Option Nat
  amount : Rat
  period : BudgetPeriod
  start_date : Nat
  end_date : Nat
  alert_threshold : Rat
deriving DecidableEq, Repr

/-- db/schema.ts lines 428–437 (`createBudgetInputSchema`): the zod
validation the router runs before the handler — `amount` positive and
`alert_threshold` within [0,100].  The two dates are only coerced; no
relation between them is checked. -/
def validCreateBudgetInput (i : CreateBudgetInput) : Bool :=
  decide (0 < i.amount) && decide (0 ≤ i.alert_threshold) && decide (i.alert_threshold ≤ 100)

/-- budgets.ts lines 6–59 behind the zod gate: reject input the schema
refuses, verify the user exists, verify the category exists when one is
given, then insert the row (`is_active` defaults to true).  An `.error`
result inserts nothing. -/
def createBudget (db : DB) (input : CreateBudgetInput) (userId : Nat) :
    Except String (DB × Budget) :=
  if ¬ validCreateBudgetInput input then
    .error "InvalidInput"
  else if (db.users.find? (fun u => u.id == userId)).isNone then
    .error "User does not exist"
  else if (input.category_id.any (fun cid => (db.categories.find? (fun c => c.id == cid)).isNone)) then
    .error "Category does not exist"
  else
    let b : Budget :=
      { id := db.budgets.length + 1
        user_id := userId
        category_id := input.category_id
        amount := input.amount
        period := input.period
        start_date := input.start_date
        end_date := input.end_date
        alert_threshold := input.alert_threshold
        is_active := true }
    .ok ({ db with budgets := db.budgets ++ [b] }, b)

structure BudgetEvalResult where
  spent : Rat
  remaining : Rat
  utilization_pct : Rat
  alert_triggered : Bool
  is_over_budget : Bool
deriving DecidableEq, Repr

/-- Modelled from the spec: `getBudgetUtilization` (budgets.ts lines
101–114) is a placeholder declaration, so the §4.3 evaluator is taken
from the spec — sum approved/paid expenses of the budget's owner in the
budget's category (all categories when null) dated within
`[start_date, min(end_date, as_of)]`; `utilization_pct` is 0 when
`amount = 0` rather than a division by zero. -/
def evaluateBudget (db : DB) (b : Budget) (asOf : Nat) : BudgetEvalResult :=
  let spent := totalAmountOf (db.expenses.filter (fun e =>
    (e.status == .approved || e.status == .paid)
      && (match b.category_id with
        | some cid => e.category_id == cid
        | none => true)
      && e.user_id == b.user_id
      && decide (b.start_date ≤ e.expense_date)
      && decide (e.expense_date ≤ min b.end_date asOf)))
  let util := if b.amount = 0 then 0 else spent / b.amount * 100
  { spent := spent
    remaining := b.amount - spent
    utilization_pct := util
    alert_triggered := decide (b.alert_threshold ≤ util)
    is_over_budget := decide (b.amount < spent) }

/-! ## Teams (teams.ts: createTeam lines 6–37, deleteTeam lines 190–241) -/

structure CreateTeamInput where
  name : String
  manager_id : Nat
deriving DecidableEq, Repr

/-- teams.ts lines 6–37: verify the designated manager exists and has
role manager or admin, then insert the team row.  An `.error` result
inserts nothing. -/
def createTeam (db : DB) (input : CreateTeamInput) : Except String (DB × Team) :=
  match db.users.find? (fun u => u.id == input.manager_id) with
  | none => .error "Manager not found"
  | some m =>
    if m.role ≠ "manager" ∧ m.role ≠ "admin" then
      .error "User must be a manager or admin to manage teams"
    else
      let t : Team := { id := db.teams.length + 1, manager_id := input.manager_id }
      .ok ({ db with teams := db.teams ++ [t] }, t)

/-- teams.ts lines 190–241: after the existence and permission checks,
null out `team_id` on the expenses that referenced the team, delete the
team's membership rows, and delete the team row. -/
def deleteTeam (db : DB) (teamId userId : Nat) : Except String DB :=
  match db.teams.find? (fun t => t.id == teamId) with
  | none => .error "Team not found"
  | some team =>
    match db.users.find? (fun u => u.id == userId) with
    | none => .error "User not found"
    | some user =>
      if user.role ≠ "admin" ∧ team.manager_id ≠ userId then
        .error "Access denied: Only team managers or admins can delete teams"
      else
        .ok { db with
          expenses := db.expenses.map (fun e =>
            if e.team_id == some teamId then { e with team_id := none } else e)
          teamMembers := db.teamMembers.filter (fun m => ¬ m.team_id == teamId)
          teams := db.teams.filter (fun t => ¬ t.id == teamId) }

/-! ## Sample rows used by the concrete witnesses -/

/-- A concrete pending expense. -/
def samplePending : Expense :=
  ⟨1, 2, 1, 50, "lunch", 20240115, .pending, none, none, none⟩

/-- A concrete draft expense. -/
def sampleDraft : Expense :=
  ⟨2, 2, 1, 40, "taxi", 20240116, .draft, none, none, none⟩

/-! ## Claim theorems -/

/-- The §4.2 transition graph, pair by pair. -/
lemma validTransition_iff (f t : ExpenseStatus) :
    validTransition f t = true ↔
      ((f = .draft ∧ t = .pending) ∨ (f = .pending ∧ t = .approved)
        ∨ (f = .pending ∧ t = .rejected) ∨ (f = .approved ∧ t = .paid)
        ∨ (f = .rejected ∧ t = .draft)) := by
  cases f <;> cases t <;> simp [validTransition]

/-- C2: only the transitions draft→pending, pending→approved,
pending→rejected, approved→paid and rejected→draft can succeed; a
request for any other pair fails with `InvalidTransition` carrying the
current and requested state (and, the handler performing no write on an
error, the stored expense is unchanged). -/
theorem C2_transition_graph (e : Expense) (t : ExpenseStatus) (a n : Nat) :
    (validTransition e.status t = true ↔
      ((e.status = .draft ∧ t = .pending) ∨ (e.status = .pending ∧ t = .approved)
        ∨ (e.status = .pending ∧ t = .rejected) ∨ (e.status = .approved ∧ t = .paid)
        ∨ (e.status = .rejected ∧ t = .draft)))
    ∧ (validTransition e.status t = true → (requestTransition e t a n).isOk = true)
    ∧ (validTransition e.status t = false →
        requestTransition e t a n = .error (.invalidTransition e.status t)) := by
  refine ⟨validTransition_iff _ _, ?_, ?_⟩
  · intro h
    simp [requestTransition, h, Except.isOk, Except.toBool]
  · intro h
    simp [requestTransition, h]

/-- Witness for C2: draft→paid is outside the graph and yields
`InvalidTransition draft paid`; pending→approved succeeds. -/
theorem C2_transition_graph_witness :
    requestTransition sampleDraft .paid 3 9 = .error (.invalidTransition .draft .paid)
    ∧ (requestTransition samplePending .approved 3 9).isOk = true :=
  ⟨(C2_transition_graph sampleDraft .paid 3 9).2.2 rfl,
   (C2_transition_graph samplePending .approved 3 9).2.1 rfl⟩

/-- C3: every division in the analytics and budget-utilization outputs
resolves a zero denominator to 0: `avg_expense` is 0 when
`expense_count` is 0, each breakdown percentage is 0 when `total_amount`
is 0, `variance_percentage` is 0 when the summed budget amount is 0, and
a budget with amount 0 evaluates to `utilization_pct = 0`. -/
theorem C3_div_zero_policy (db : DB) (uid : Nat) (role : String) (sd ed asOf : Nat)
    (b : Budget) :
    ((getExpenseAnalytics db uid role sd ed).expense_count = 0 →
      (getExpenseAnalytics db uid role sd ed).avg_expense = 0)
    ∧ ((getExpenseAnalytics db uid role sd ed).total_amount = 0 →
      ∀ c ∈ (getExpenseAnalytics db uid role sd ed).category_breakdown, c.percentage = 0)
    ∧ ((getExpenseAnalytics db uid role sd ed).budget_vs_actual.budget_amount = 0 →
      (getExpenseAnalytics db uid role sd ed).budget_vs_actual.variance_percentage = 0)
    ∧ (b.amount = 0 → (evaluateBudget db b asOf).utilization_pct = 0) := by
  refine ⟨?_, ?_, ?_, ?_⟩
  · intro h
    simp only [getExpenseAnalytics, analyticsOf] at h ⊢
    simp [h]
  · intro h c hc
    simp only [getExpenseAnalytics, analyticsOf] at h hc
    simp only [categoryBreakdown, List.mem_map] at hc
    obtain ⟨nm, hnm, rfl⟩ := hc
    simp [h]
  · intro h
    simp only [getExpenseAnalytics, analyticsOf, budgetVsActual] at h ⊢
    simp [h]
  · intro h
    simp [evaluateBudget, h]

/-- Witness for C3: on an empty store the count, total and budget sum are
0 and the outputs are 0; a store with one zero-amount expense exercises
the percentage branch; a zero-amount budget evaluates to utilization 0. -/
theorem C3_div_zero_policy_witness :
    (getExpenseAnalytics ⟨[], [], [], [], [], []⟩ 1 "user" 0 0).avg_expense = 0
    ∧ ({ category_name := "Travel", amount := 0, percentage := 0 } :
        CategoryBreakdownEntry).percentage = 0
    ∧ (getExpenseAnalytics ⟨[], [], [], [], [], []⟩ 1 "user" 0 0).budget_vs_actual.variance_percentage = 0
    ∧ (evaluateBudget ⟨[], [], [], [], [], []⟩
        ⟨1, 1, none, 0, .monthly, 20240101, 20241231, 80, true⟩ 0).utilization_pct = 0 := by
  have h0 := C3_div_zero_policy ⟨[], [], [], [], [], []⟩ 1 "user" 0 0 0
    ⟨1, 1, none, 0, .monthly, 20240101, 20241231, 80, true⟩
  have h1 := C3_div_zero_policy
    ⟨[⟨1, "user"⟩], [], [], [⟨1, "Travel"⟩],
      [⟨1, 1, 1, 0, "x", 20240105, .draft, none, none, none⟩], []⟩
    1 "user" 20240101 20240131 0
    ⟨1, 1, none, 0, .monthly, 20240101, 20241231, 80, true⟩
  refine ⟨h0.1 rfl, ?_, h0.2.2.1 rfl, h0.2.2.2 rfl⟩
  refine h1.2.1 ?_ { category_name := "Travel", amount := 0, percentage := 0 } ?_
  · simp [getExpenseAnalytics, analyticsOf, filteredExpenses, expenseCond, dateCond,
      expenseScopeCond, totalAmountOf, List.filter]
  · simp [getExpenseAnalytics, analyticsOf, categoryBreakdown, breakdownKeys,
      categoryAmount, expenseCategoryName, filteredExpenses, expenseCond, dateCond,
      expenseScopeCond, totalAmountOf, List.filter, List.filterMap]

/-- C8: with the guard and write expressed as one compare-and-swap on
the current status, of two approval attempts racing on the same pending
expense the first to run its CAS succeeds and sets the requested final
status, and the second fails with `Conflict` instead of overwriting. -/
theorem C8_cas_conflict (e : Expense) (t1 t2 : ExpenseStatus) (a1 a2 n1 n2 : Nat)
    (hp : e.status = .pending)
    (h1 : t1 = .approved ∨ t1 = .rejected)
    (h2 : t2 = .approved ∨ t2 = .rejected) :
    approveExpense e .pending t1 a1 n1 = .ok (applyTransition e t1 a1 n1)
    ∧ (applyTransition e t1 a1 n1).status = t1
    ∧ approveExpense (applyTransition e t1 a1 n1) .pending t2 a2 n2
        = .error (.conflict t1) := by
  rcases h1 with rfl | rfl <;> rcases h2 with rfl | rfl <;>
    exact ⟨by simp [approveExpense, requestTransition, validTransition, hp],
      by simp [applyTransition, hp],
      by simp [approveExpense, applyTransition, hp]⟩

/-- Witness for C8: an approval and a rejection race on a concrete
pending expense; the approval's CAS runs first and wins, the rejection
receives `Conflict`. -/
theorem C8_cas_conflict_witness :
    approveExpense samplePending .pending .approved 9 91 = .ok (applyTransition samplePending .approved 9 91)
    ∧ (applyTransition samplePending .approved 9 91).status = .approved
    ∧ approveExpense (applyTransition samplePending .approved 9 91) .pending .rejected 8 92
        = .error (.conflict .approved) :=
  C8_cas_conflict samplePending .approved .rejected 9 8 91 92 rfl (Or.inl rfl) (Or.inr rfl)

/-- The role gate of `createTeam` (teams.ts lines 9–20) as a predicate:
the designated manager row exists and its role is manager or admin. -/
def managerRoleOk (db : DB) (managerId : Nat) : Bool :=
  match db.users.find? (fun u => u.id == managerId) with
  | some u => u.role == "manager" || u.role == "admin"
  | none => false

/-- C9: createTeam succeeds exactly when the input's `manager_id` refers
to an existing user whose role is manager or admin; when that user is
absent or has role user the call throws, and a success appends exactly
the new team row and touches nothing else. -/
theorem C9_createTeam_role_guard (db : DB) (input : CreateTeamInput) :
    ((createTeam db input).isOk = managerRoleOk db input.manager_id)
    ∧ (∀ r, createTeam db input = .ok r →
        r.1.teams = db.teams ++ [r.2] ∧ r.1.users = db.users
          ∧ r.1.teamMembers = db.teamMembers ∧ r.1.expenses = db.expenses
          ∧ r.1.budgets = db.budgets ∧ r.1.categories = db.categories)
    ∧ (db.users.find? (fun u => u.id == input.manager_id) = none →
        createTeam db input = .error "Manager not found")
    ∧ (∀ u, db.users.find? (fun u => u.id == input.manager_id) = some u →
        u.role = "user" →
        createTeam db input = .error "User must be a manager or admin to manage teams") := by
  cases hfind : db.users.find? (fun u => u.id == input.manager_id) with
  | none =>
    refine ⟨?_, ?_, ?_, ?_⟩
    · simp [createTeam, hfind, managerRoleOk, Except.isOk, Except.toBool]
    · intro r h
      simp [createTeam, hfind] at h
    · intro _
      simp [createTeam, hfind]
    · intro u hu
      simp [hfind] at hu
  | some m =>
    by_cases hrole : m.role ≠ "manager" ∧ m.role ≠ "admin"
    · refine ⟨?_, ?_, ?_, ?_⟩
      · simp [createTeam, hfind, hrole, managerRoleOk, Except.isOk, Except.toBool,
          hrole.1, hrole.2]
      · intro r h
        simp [createTeam, hfind, hrole] at h
      · intro hnone
        simp [hfind] at hnone
      · intro u hu _
        simp [createTeam, hfind, hrole]
    · have hor : m.role = "manager" ∨ m.role = "admin" := by
        rcases not_and_or.mp hrole with h | h
        · exact Or.inl (not_not.mp h)
        · exact Or.inr (not_not.mp h)
      refine ⟨?_, ?_, ?_, ?_⟩
      · rcases hor with h | h <;>
          simp [createTeam, hfind, hrole, managerRoleOk, Except.isOk, Except.toBool, h]
      · intro r h
        simp only [createTeam, hfind, if_neg hrole] at h
        obtain rfl := (Except.ok.inj h).symm
        exact ⟨rfl, rfl, rfl, rfl, rfl, rfl⟩
      · intro hnone
        simp [hfind] at hnone
      · intro u hu hu2
        obtain rfl := Option.some.inj hu
        rcases hor with h | h <;> rw [hu2] at h <;> simp at h

/-- Witness for C9: a designated manager with role user is refused; one
with role manager is accepted. -/
theorem C9_createTeam_role_guard_witness :
    createTeam ⟨[⟨1, "user"⟩], [], [], [], [], []⟩ ⟨"T", 1⟩
      = .error "User must be a manager or admin to manage teams"
    ∧ (createTeam ⟨[⟨1, "manager"⟩], [], [], [], [], []⟩ ⟨"T", 1⟩).isOk = true := by
  have h1 := C9_createTeam_role_guard ⟨[⟨1, "user"⟩], [], [], [], [], []⟩ ⟨"T", 1⟩
  have h2 := C9_createTeam_role_guard ⟨[⟨1, "manager"⟩], [], [], [], [], []⟩ ⟨"T", 1⟩
  refine ⟨h1.2.2.2 ⟨1, "user"⟩ rfl rfl, ?_⟩
  rw [h2.1]
  rfl

/-- C10: a successful deleteTeam keeps every expense row (same count,
and each row is either identical or identical except for its `team_id`
being cleared when it referenced the deleted team), removes exactly the
team's membership rows and exactly the team row, and leaves users,
categories and budgets untouched. -/
theorem C10_deleteTeam_frame (db : DB) (teamId userId : Nat) (db' : DB)
    (h : deleteTeam db teamId userId = .ok db') :
    db'.expenses.length = db.expenses.length
    ∧ (∀ i : Nat, db'.expenses[i]? = (db.expenses[i]?).map (fun e =>
        if e.team_id == some teamId then { e with team_id := none } else e))
    ∧ db'.teamMembers = db.teamMembers.filter (fun m => ¬ m.team_id == teamId)
    ∧ db'.teams = db.teams.filter (fun t => ¬ t.id == teamId)
    ∧ db'.users = db.users ∧ db'.categories = db.categories
    ∧ db'.budgets = db.budgets := by
  rcases hfT : db.teams.find? (fun t => t.id == teamId) with _ | team
  · simp [deleteTeam, hfT] at h
  · rcases hfU : db.users.find? (fun u => u.id == userId) with _ | user
    · simp [deleteTeam, hfT, hfU] at h
    · simp only [deleteTeam, hfT, hfU] at h
      split at h
      · simp at h
      · obtain rfl := (Except.ok.inj h).symm
        refine ⟨by simp, fun i => by simp [List.getElem?_map], rfl, rfl, rfl, rfl, rfl⟩

/-- A concrete store for the C10 witness: one team (id 10) with a
member, a second team (id 11), and one expense on each team. -/
def c10db : DB :=
  { users := [⟨1, "manager"⟩, ⟨2, "user"⟩]
    teams := [⟨10, 1⟩, ⟨11, 1⟩]
    teamMembers := [⟨10, 2⟩, ⟨11, 2⟩]
    categories := [⟨1, "Travel"⟩]
    expenses := [⟨1, 2, 1, 50, "a", 20240101, .draft, none, none, some 10⟩,
                 ⟨2, 2, 1, 60, "b", 20240102, .draft, none, none, some 11⟩]
    budgets := [] }

/-- The store `deleteTeam c10db 10 1` produces: team 10 and its
membership are gone, expense 1 keeps all fields but loses its team link,
expense 2 and team 11 are untouched. -/
def c10dbAfter : DB :=
  { users := [⟨1, "manager"⟩, ⟨2, "user"⟩]
    teams := [⟨11, 1⟩]
    teamMembers := [⟨11, 2⟩]
    categories := [⟨1, "Travel"⟩]
    expenses := [⟨1, 2, 1, 50, "a", 20240101, .draft, none, none, none⟩,
                 ⟨2, 2, 1, 60, "b", 20240102, .draft, none, none, some 11⟩]
    budgets := [] }

/-- Witness for C10 at the concrete store. -/
theorem C10_deleteTeam_frame_witness :
    c10dbAfter.expenses.length = c10db.expenses.length
    ∧ c10dbAfter.expenses[0]? = (c10db.expenses[0]?).map (fun e =>
        if e.team_id == some 10 then { e with team_id := none } else e)
    ∧ c10dbAfter.expenses[1]? = (c10db.expenses[1]?).map (fun e =>
        if e.team_id == some 10 then { e with team_id := none } else e)
    ∧ c10dbAfter.teamMembers = c10db.teamMembers.filter (fun m => ¬ m.team_id == 10)
    ∧ c10dbAfter.teams = c10db.teams.filter (fun t => ¬ t.id == 10)
    ∧ c10dbAfter.users = c10db.users := by
  have h := C10_deleteTeam_frame c10db 10 1 c10dbAfter rfl
  exact ⟨h.1, h.2.1 0, h.2.1 1, h.2.2.1, h.2.2.2.1, h.2.2.2.2.1⟩

/-- The zod gate of createBudget, written out as a proposition. -/
lemma validCreateBudgetInput_iff (i : CreateBudgetInput) :
    validCreateBudgetInput i = true ↔
      (0 < i.amount ∧ 0 ≤ i.alert_threshold ∧ i.alert_threshold ≤ 100) := by
  simp [validCreateBudgetInput, and_assoc]

/-- Counterexample for C5 as stated: an input with amount 100 and
threshold 80 but `start_date` 2024-03-01 after `end_date` 2024-01-01
passes `createBudgetInputSchema` (which never compares the two dates),
so createBudget succeeds and the stored budget violates
`start_date ≤ end_date`. -/
theorem C5_counterexample :
    ((createBudget ⟨[⟨1, "user"⟩], [], [], [], [], []⟩
        ⟨none, 100, .monthly, 20240301, 20240101, 80⟩ 1).toOption.map
      (fun p => decide (p.2.end_date < p.2.start_date))) = some true := by
  rfl

/-- C5 as the code has it: createBudget fails with InvalidInput (and
inserts nothing) exactly when the amount is non-positive or the alert
threshold leaves [0,100]; the two dates are copied unchecked into the
stored row, so an accepted input may store `start_date > end_date`. -/
theorem C5_createBudget_validation (db : DB) (input : CreateBudgetInput) (userId : Nat) :
    (¬ (0 < input.amount ∧ 0 ≤ input.alert_threshold ∧ input.alert_threshold ≤ 100) →
      createBudget db input userId = .error "InvalidInput")
    ∧ (∀ p, createBudget db input userId = .ok p →
        (0 < input.amount ∧ 0 ≤ input.alert_threshold ∧ input.alert_threshold ≤ 100)
        ∧ p.2.amount = input.amount
        ∧ p.2.start_date = input.start_date ∧ p.2.end_date = input.end_date
        ∧ p.2.alert_threshold = input.alert_threshold ∧ p.2.is_active = true
        ∧ p.1.budgets = db.budgets ++ [p.2]) := by
  constructor
  · intro h
    have hv : ¬ (validCreateBudgetInput input = true) := fun hv =>
      h ((validCreateBudgetInput_iff input).mp hv)
    unfold createBudget
    rw [if_pos hv]
  · intro p hp
    unfold createBudget at hp
    split_ifs at hp with h1 h2 h3
    obtain rfl := (Except.ok.inj hp).symm
    refine ⟨(validCreateBudgetInput_iff input).mp h1, ?_, ?_, ?_, ?_, ?_, ?_⟩ <;> rfl

/-- Witness for C5: a negative amount is refused with InvalidInput; the
accepted input (amount 100, threshold 80) stores its fields verbatim and
appends exactly one budget row. -/
theorem C5_createBudget_validation_witness :
    createBudget ⟨[⟨1, "user"⟩], [], [], [], [], []⟩
        ⟨none, -1, .monthly, 20240101, 20241231, 80⟩ 1 = .error "InvalidInput"
    ∧ (((0:Rat) < 100 ∧ (0:Rat) ≤ 80 ∧ (80:Rat) ≤ 100)
        ∧ ((⟨1, 1, none, 100, .monthly, 20240101, 20241231, 80, true⟩ : Budget).amount = 100)
        ∧ (⟨1, 1, none, 100, .monthly, 20240101, 20241231, 80, true⟩ : Budget).start_date = 20240101
        ∧ (⟨1, 1, none, 100, .monthly, 20240101, 20241231, 80, true⟩ : Budget).end_date = 20241231
        ∧ (⟨1, 1, none, 100, .monthly, 20240101, 20241231, 80, true⟩ : Budget).alert_threshold = 80
        ∧ (⟨1, 1, none, 100, .monthly, 20240101, 20241231, 80, true⟩ : Budget).is_active = true
        ∧ (⟨[⟨1, "user"⟩], [], [], [], [], [⟨1, 1, none, 100, .monthly, 20240101, 20241231, 80, true⟩]⟩ : DB).budgets
            = ([] : List Budget) ++ [⟨1, 1, none, 100, .monthly, 20240101, 20241231, 80, true⟩]) := by
  have h1 := C5_createBudget_validation ⟨[⟨1, "user"⟩], [], [], [], [], []⟩
    ⟨none, -1, .monthly, 20240101, 20241231, 80⟩ 1
  have h2 := C5_createBudget_validation ⟨[⟨1, "user"⟩], [], [], [], [], []⟩
    ⟨none, 100, .monthly, 20240101, 20241231, 80⟩ 1
  refine ⟨h1.1 (by decide), ?_⟩
  exact h2.2
    (⟨[⟨1, "user"⟩], [], [], [], [], [⟨1, 1, none, 100, .monthly, 20240101, 20241231, 80, true⟩]⟩,
      ⟨1, 1, none, 100, .monthly, 20240101, 20241231, 80, true⟩) rfl

/-- A valid lifecycle edge preserves the approval-field invariant. -/
lemma applyTransition_invariant (e : Expense) (t : ExpenseStatus) (a n : Nat)
    (hv : validTransition e.status t = true) (hinv : approvalInvariant e) :
    approvalInvariant (applyTransition e t a n) := by
  obtain ⟨hboth, hdp⟩ := hinv
  cases hs : e.status <;> cases t <;>
    simp_all [validTransition, applyTransition, approvalInvariant]

/-- C6: createExpense always stores status draft with both approval
columns NULL, and every modelled operation (owner update, lifecycle
transition) preserves the invariant that `approved_by` and `approved_at`
are both set or both unset and both unset while status is draft or
pending. -/
theorem C6_approval_fields (db : DB) (input : CreateExpenseInput) (uid : Nat)
    (e e' eu : Expense) (amt : Rat) (cid : Nat) (d : String) (t : ExpenseStatus)
    (a n : Nat) :
    (createExpense db input uid = .ok e →
      e.status = .draft ∧ e.approved_by = none ∧ e.approved_at = none ∧ approvalInvariant e)
    ∧ (approvalInvariant e' → updateExpense e' amt cid d = .ok eu → approvalInvariant eu)
    ∧ (approvalInvariant e' → requestTransition e' t a n = .ok eu → approvalInvariant eu) := by
  refine ⟨?_, ?_, ?_⟩
  · intro h
    unfold createExpense at h
    split_ifs at h with h1 h2
    obtain rfl := (Except.ok.inj h).symm
    refine ⟨rfl, rfl, rfl, ?_⟩
    constructor
    · simp
    · intro _
      exact ⟨rfl, rfl⟩
  · intro hinv h
    unfold updateExpense at h
    split_ifs at h with h1
    obtain rfl := (Except.ok.inj h).symm
    exact hinv
  · intro hinv h
    unfold requestTransition at h
    split_ifs at h with hv
    obtain rfl := (Except.ok.inj h).symm
    exact applyTransition_invariant e' t a n hv hinv

/-- Witness for C6: a fresh expense is draft with both approval fields
NULL, an owner edit of a draft keeps the invariant, and approving a
pending expense keeps the invariant. -/
theorem C6_approval_fields_witness :
    ((⟨1, 7, 1, 50, "d", 20240101, .draft, none, none, none⟩ : Expense).status = .draft
      ∧ (⟨1, 7, 1, 50, "d", 20240101, .draft, none, none, none⟩ : Expense).approved_by = none
      ∧ (⟨1, 7, 1, 50, "d", 20240101, .draft, none, none, none⟩ : Expense).approved_at = none
      ∧ approvalInvariant ⟨1, 7, 1, 50, "d", 20240101, .draft, none, none, none⟩)
    ∧ approvalInvariant { sampleDraft with amount := 5, category_id := 1, description := "x" }
    ∧ approvalInvariant (applyTransition samplePending .approved 9 99) := by
  have h1 := C6_approval_fields ⟨[], [], [], [⟨1, "Travel"⟩], [], []⟩ ⟨1, 50, "d", 20240101, none⟩ 7
    ⟨1, 7, 1, 50, "d", 20240101, .draft, none, none, none⟩
    sampleDraft { sampleDraft with amount := 5, category_id := 1, description := "x" }
    5 1 "x" .pending 9 99
  have h2 := C6_approval_fields ⟨[], [], [], [⟨1, "Travel"⟩], [], []⟩ ⟨1, 50, "d", 20240101, none⟩ 7
    ⟨1, 7, 1, 50, "d", 20240101, .draft, none, none, none⟩
    samplePending (applyTransition samplePending .approved 9 99)
    5 1 "x" .approved 9 99
  exact ⟨h1.1 rfl, h1.2.1 ⟨Iff.rfl, fun _ => ⟨rfl, rfl⟩⟩ rfl,
    h2.2.2 ⟨Iff.rfl, fun _ => ⟨rfl, rfl⟩⟩ rfl⟩

/-- The manager visibility test the analytics `WHERE` clause implements:
own record, or record's `team_id` among the managed teams.  (The
empty-managed-team-list special case of the source collapses into this,
since membership in an empty list is false.) -/
def managerVisible (db : DB) (uid : Nat) (e : Expense) : Bool :=
  e.user_id == uid ||
    (match e.team_id with
      | some t => (managedTeamIds db uid).contains t
      | none => false)

/-- The source's manager branch equals `managerVisible` in both its
arms. -/
lemma scope_manager (db : DB) (uid : Nat) (e : Expense) :
    expenseScopeCond db uid "manager" e = managerVisible db uid e := by
  simp only [expenseScopeCond, managerVisible]
  norm_num
  by_cases h : (managedTeamIds db uid).length > 0
  · simp [h]
  · have hnil : managedTeamIds db uid = [] :=
      List.length_eq_zero.mp (Nat.eq_zero_of_not_pos h)
    rw [if_neg h, hnil]
    cases e.team_id <;> simp

/-- A concrete store refuting C1 as stated: user 2 is a member of team
10 managed by user 1, and owns an in-range expense with `team_id` NULL;
the manager's analytics count that expense zero times (an admin sees
it). -/
def c1db : DB :=
  { users := [⟨1, "manager"⟩, ⟨2, "user"⟩]
    teams := [⟨10, 1⟩]
    teamMembers := [⟨10, 2⟩]
    categories := [⟨1, "Travel"⟩]
    expenses := [⟨1, 2, 1, 50, "taxi", 20240215, .approved, some 1, some 1, none⟩]
    budgets := [] }

/-- Counterexample for C1: membership links user 2 to the manager's team
10, the expense is in the requested range (the admin run counts it), yet
the manager's analytics count and total are 0. -/
theorem C1_counterexample :
    ((⟨10, 2⟩ : TeamMember) ∈ c1db.teamMembers)
    ∧ ((⟨10, 1⟩ : Team) ∈ c1db.teams)
    ∧ (c1db.expenses.filter (fun e => e.user_id == 2 && e.team_id == none)).length = 1
    ∧ (getExpenseAnalytics c1db 1 "admin" 20240101 20241231).expense_count = 1
    ∧ (getExpenseAnalytics c1db 1 "manager" 20240101 20241231).expense_count = 0
    ∧ (getExpenseAnalytics c1db 1 "manager" 20240101 20241231).total_amount = 0 := by
  refine ⟨by decide, by decide, by rfl, by rfl, by rfl, by rfl⟩

/-- C1 amended: when the manager manages at most one team (the only
regime in which the string-joined `IN` parameter casts and the query
runs) the call succeeds and its analytics range over exactly the
in-range expenses that are the manager's own or carry a managed team's
id in `team_id` — so an expense with `team_id` NULL owned by someone
else is never counted, membership notwithstanding; when the manager
manages two or more teams the call throws on the failed integer cast
instead of filtering. -/
theorem C1_manager_scope (db : DB) (uid sd ed : Nat) :
    ((managedTeamIds db uid).length ≤ 1 →
      runGetExpenseAnalytics db uid "manager" sd ed
          = .ok (getExpenseAnalytics db uid "manager" sd ed)
      ∧ ((getExpenseAnalytics db uid "manager" sd ed).expense_count
        = (db.expenses.filter (fun e => dateCond sd ed e && managerVisible db uid e)).length)
      ∧ ((getExpenseAnalytics db uid "manager" sd ed).total_amount
        = totalAmountOf (db.expenses.filter (fun e => dateCond sd ed e && managerVisible db uid e)))
      ∧ (∀ e ∈ db.expenses, e.team_id = none → (e.user_id == uid) = false →
          expenseCond db uid "manager" sd ed e = false))
    ∧ (2 ≤ (managedTeamIds db uid).length →
        runGetExpenseAnalytics db uid "manager" sd ed
          = .error "invalid input syntax for type integer") := by
  have hfe : filteredExpenses db uid "manager" sd ed
      = db.expenses.filter (fun e => dateCond sd ed e && managerVisible db uid e) := by
    unfold filteredExpenses
    apply List.filter_congr
    intro e _
    simp [expenseCond, scope_manager]
  constructor
  · intro hlen
    refine ⟨?_, ?_, ?_, ?_⟩
    · unfold runGetExpenseAnalytics
      rw [if_neg]
      intro hc
      omega
    · show (filteredExpenses db uid "manager" sd ed).length = _
      rw [hfe]
    · show totalAmountOf (filteredExpenses db uid "manager" sd ed) = _
      rw [hfe]
    · intro e _ hnone huid
      simp [expenseCond, scope_manager, managerVisible, hnone, huid]
  · intro hlen
    unfold runGetExpenseAnalytics
    rw [if_pos ⟨rfl, hlen⟩]

/-- Witness for C1's amended statement: at the single-team
counterexample store the call succeeds, the manager's count equals that
of the explicit filter, and the teammate's NULL-team expense fails the
scope test; at a store whose manager manages the two teams 10 and 11
the call throws on the failed cast. -/
theorem C1_manager_scope_witness :
    runGetExpenseAnalytics c1db 1 "manager" 20240101 20241231
        = .ok (getExpenseAnalytics c1db 1 "manager" 20240101 20241231)
    ∧ ((getExpenseAnalytics c1db 1 "manager" 20240101 20241231).expense_count
      = (c1db.expenses.filter (fun e => dateCond 20240101 20241231 e && managerVisible c1db 1 e)).length)
    ∧ expenseCond c1db 1 "manager" 20240101 20241231
        ⟨1, 2, 1, 50, "taxi", 20240215, .approved, some 1, some 1, none⟩ = false
    ∧ runGetExpenseAnalytics c10db 1 "manager" 20240101 20241231
        = .error "invalid input syntax for type integer" := by
  have h := C1_manager_scope c1db 1 20240101 20241231
  have h2 := C1_manager_scope c10db 1 20240101 20241231
  have hlen : (managedTeamIds c1db 1).length ≤ 1 := by decide
  exact ⟨(h.1 hlen).1, (h.1 hlen).2.1,
    (h.1 hlen).2.2.2 ⟨1, 2, 1, 50, "taxi", 20240215, .approved, some 1, some 1, none⟩
      (by decide) rfl rfl,
    h2.2 (by decide)⟩

/-- The user branch of the role filter is plain ownership. -/
lemma scope_user (db : DB) (uid : Nat) (e : Expense) :
    expenseScopeCond db uid "user" e = (e.user_id == uid) := by
  simp [expenseScopeCond]

/-- For role user the analytics expense rows are a date filter over the
actor's own rows. -/
lemma filteredExpenses_user (db : DB) (uid sd ed : Nat) :
    filteredExpenses db uid "user" sd ed
      = (db.expenses.filter (fun e => e.user_id == uid)).filter
          (fun e => dateCond sd ed e) := by
  unfold filteredExpenses
  rw [List.filter_filter]
  apply List.filter_congr
  intro e _
  simp [expenseCond, scope_user, Bool.and_comm]

/-- For role user the analytics budget rows are a period/activity filter
over the actor's own rows. -/
lemma filteredBudgets_user (db : DB) (uid sd ed : Nat) :
    db.budgets.filter (budgetCond uid "user" sd ed)
      = (db.budgets.filter (fun b => b.user_id == uid)).filter
          (fun b => decide (b.start_date ≤ ed) && decide (sd ≤ b.end_date) && b.is_active) := by
  rw [List.filter_filter]
  apply List.filter_congr
  intro b _
  simp only [budgetCond]
  norm_num
  cases b.user_id == uid <;> cases decide (b.start_date ≤ ed) <;>
    cases decide (sd ≤ b.end_date) <;> cases b.is_active <;> rfl

/-- C4: two-run noninterference for role user — two stores that agree on
the actor's own expense and budget rows and on the category table (and
may differ arbitrarily on rows owned by others) produce identical
analytics for that actor. -/
theorem C4_user_noninterference (db1 db2 : DB) (uid sd ed : Nat)
    (hexp : db1.expenses.filter (fun e => e.user_id == uid)
          = db2.expenses.filter (fun e => e.user_id == uid))
    (hbud : db1.budgets.filter (fun b => b.user_id == uid)
          = db2.budgets.filter (fun b => b.user_id == uid))
    (hcat : db1.categories = db2.categories) :
    getExpenseAnalytics db1 uid "user" sd ed = getExpenseAnalytics db2 uid "user" sd ed := by
  unfold getExpenseAnalytics
  rw [filteredExpenses_user, filteredExpenses_user, filteredBudgets_user, filteredBudgets_user,
    hexp, hbud, hcat]

/-- Store with user 7's rows plus a second user's rows. -/
def c4dbBig : DB :=
  { users := [⟨7, "user"⟩, ⟨8, "user"⟩]
    teams := []
    teamMembers := []
    categories := [⟨1, "Travel"⟩]
    expenses := [⟨1, 7, 1, 50, "own", 20240110, .approved, some 9, some 9, none⟩,
                 ⟨2, 8, 1, 999, "other", 20240111, .approved, some 9, some 9, none⟩]
    budgets := [⟨1, 7, none, 200, .monthly, 20240101, 20240131, 80, true⟩,
                ⟨2, 8, none, 777, .monthly, 20240101, 20240131, 80, true⟩] }

/-- The same store with every row of the second user removed. -/
def c4dbOwn : DB :=
  { users := [⟨7, "user"⟩]
    teams := []
    teamMembers := []
    categories := [⟨1, "Travel"⟩]
    expenses := [⟨1, 7, 1, 50, "own", 20240110, .approved, some 9, some 9, none⟩]
    budgets := [⟨1, 7, none, 200, .monthly, 20240101, 20240131, 80, true⟩] }

/-- Witness for C4: dropping the other user's rows leaves user 7's
analytics unchanged. -/
theorem C4_user_noninterference_witness :
    getExpenseAnalytics c4dbBig 7 "user" 20240101 20240131
      = getExpenseAnalytics c4dbOwn 7 "user" 20240101 20240131 :=
  C4_user_noninterference c4dbBig c4dbOwn 7 20240101 20240131 rfl rfl rfl

/-- Summing a family over a duplicate-free key list, with one designated
key's summand increased by `c`, adds `c` once to the plain sum. -/
lemma sum_map_extract {α : Type} [DecidableEq α] (c : Rat) (g : α → Rat) :
    ∀ (keys : List α) (x : α), keys.Nodup → x ∈ keys →
      (keys.map (fun n => if n = x then c + g n else g n)).sum = c + (keys.map g).sum := by
  intro keys
  induction keys with
  | nil =>
    intro x _ hx
    cases hx
  | cons y ys ih =>
    intro x hnd hx
    rcases List.mem_cons.mp hx with rfl | hx'
    · have hyn : x ∉ ys := (List.nodup_cons.mp hnd).1
      have hmap : ys.map (fun n => if n = x then c + g n else g n) = ys.map g := by
        apply List.map_congr_left
        intro b hb
        refine if_neg ?_
        rintro rfl
        exact hyn hb
      simp only [List.map_cons, List.sum_cons]
      rw [hmap, if_true]
      ring
    · have hyx : y ≠ x := by
        rintro rfl
        exact (List.nodup_cons.mp hnd).1 hx'
      simp only [List.map_cons, List.sum_cons, if_neg hyx]
      rw [ih x (List.nodup_cons.mp hnd).2 hx']
      ring

/-- Grouping by the present keys and summing each group's amounts gives
the sum over the rows that have a key at all. -/
lemma sum_over_groups (f : Expense → Option String) :
    ∀ es : List Expense,
      (((es.filterMap f).dedup).map
        (fun n => totalAmountOf (es.filter (fun e => f e == some n)))).sum
      = totalAmountOf (es.filter (fun e => (f e).isSome)) := by
  intro es
  induction es with
  | nil => simp [totalAmountOf]
  | cons e tl ih =>
    cases hfe : f e with
    | none =>
      have h1 : List.filterMap f (e :: tl) = List.filterMap f tl := by
        simp [List.filterMap_cons, hfe]
      have h3 : List.filter (fun x => (f x).isSome) (e :: tl)
          = List.filter (fun x => (f x).isSome) tl := by
        simp [List.filter_cons, hfe]
      have h2 : ((List.filterMap f tl).dedup).map
            (fun n => totalAmountOf (List.filter (fun x => f x == some n) (e :: tl)))
          = ((List.filterMap f tl).dedup).map
            (fun n => totalAmountOf (List.filter (fun x => f x == some n) tl)) := by
        apply List.map_congr_left
        intro n _
        have hstep : List.filter (fun x => f x == some n) (e :: tl)
            = List.filter (fun x => f x == some n) tl := by
          simp [List.filter_cons, hfe]
        rw [hstep]
      rw [h1, h3, h2, ih]
    | some k =>
      have h1 : List.filterMap f (e :: tl) = k :: List.filterMap f tl := by
        simp [List.filterMap_cons, hfe]
      have h3 : List.filter (fun x => (f x).isSome) (e :: tl)
          = e :: List.filter (fun x => (f x).isSome) tl := by
        simp [List.filter_cons, hfe]
      have hgrp : ∀ n, List.filter (fun x => f x == some n) (e :: tl)
          = if k = n then e :: List.filter (fun x => f x == some n) tl
            else List.filter (fun x => f x == some n) tl := by
        intro n
        by_cases hkn : k = n
        · subst hkn
          simp [List.filter_cons, hfe]
        · simp [List.filter_cons, hfe, hkn]
      rw [h1, h3]
      by_cases hk : k ∈ List.filterMap f tl
      · rw [List.dedup_cons_of_mem hk]
        have hmap : ((List.filterMap f tl).dedup).map
              (fun n => totalAmountOf (List.filter (fun x => f x == some n) (e :: tl)))
            = ((List.filterMap f tl).dedup).map
              (fun n => if n = k
                then e.amount + totalAmountOf (List.filter (fun x => f x == some n) tl)
                else totalAmountOf (List.filter (fun x => f x == some n) tl)) := by
          apply List.map_congr_left
          intro n _
          rw [hgrp n]
          by_cases hkn : k = n
          · subst hkn
            rw [if_pos rfl, if_pos rfl]
            simp [totalAmountOf]
          · rw [if_neg hkn, if_neg (fun h => hkn h.symm)]
        rw [hmap, sum_map_extract e.amount
          (fun n => totalAmountOf (List.filter (fun x => f x == some n) tl))
          ((List.filterMap f tl).dedup) k (List.nodup_dedup _) (List.mem_dedup.mpr hk), ih]
        simp [totalAmountOf]
      · rw [List.dedup_cons_of_not_mem hk]
        have hnil : List.filter (fun x => f x == some k) tl = [] := by
          rw [List.filter_eq_nil_iff]
          intro b hb hcon
          exact hk (List.mem_filterMap.mpr ⟨b, hb, beq_iff_eq.mp hcon⟩)
        have hmap : ((List.filterMap f tl).dedup).map
              (fun n => totalAmountOf (List.filter (fun x => f x == some n) (e :: tl)))
            = ((List.filterMap f tl).dedup).map
              (fun n => totalAmountOf (List.filter (fun x => f x == some n) tl)) := by
          apply List.map_congr_left
          intro n hn
          rw [hgrp n, if_neg]
          intro hkn
          exact hk (hkn ▸ List.mem_dedup.mp hn)
        simp only [List.map_cons, List.sum_cons]
        rw [hgrp k, if_pos rfl, hnil, hmap, ih]
        simp [totalAmountOf]

/-- Dividing each summand by `T` and scaling by 100 commutes with the
sum. -/
lemma sum_map_div_mul (keys : List String) (g : String → Rat) (T : Rat) :
    (keys.map (fun n => g n / T * 100)).sum = (keys.map g).sum / T * 100 := by
  induction keys with
  | nil => simp
  | cons y ys ih =>
    simp only [List.map_cons, List.sum_cons, ih]
    ring

/-- C7: whenever some expense matches and `total_amount` is positive,
the breakdown percentages (each group's amount over the total, times
100, the groups partitioning the counted expenses since every counted
expense joins exactly one category row) sum to exactly 100; and with no
matching expenses the breakdown is empty. -/
theorem C7_percentages_sum (db : DB) (uid : Nat) (role : String) (sd ed : Nat) :
    ((∀ e ∈ filteredExpenses db uid role sd ed,
        (expenseCategoryName db.categories e).isSome = true) →
      0 < (getExpenseAnalytics db uid role sd ed).total_amount →
      (((getExpenseAnalytics db uid role sd ed).category_breakdown).map
        (fun c => c.percentage)).sum = 100)
    ∧ (filteredExpenses db uid role sd ed = [] →
        (getExpenseAnalytics db uid role sd ed).category_breakdown = []) := by
  constructor
  · intro hall htot
    have htot' : 0 < totalAmountOf (filteredExpenses db uid role sd ed) := htot
    show ((categoryBreakdown db.categories (filteredExpenses db uid role sd ed)
        (totalAmountOf (filteredExpenses db uid role sd ed))).map
        (fun c => c.percentage)).sum = 100
    unfold categoryBreakdown
    rw [List.map_map]
    simp only [Function.comp_def, if_pos htot']
    rw [sum_map_div_mul]
    have hself : (filteredExpenses db uid role sd ed).filter
        (fun e => (expenseCategoryName db.categories e).isSome)
        = filteredExpenses db uid role sd ed :=
      List.filter_eq_self.mpr hall
    have hsum : ((breakdownKeys db.categories (filteredExpenses db uid role sd ed)).map
        (fun n => categoryAmount db.categories (filteredExpenses db uid role sd ed) n)).sum
        = totalAmountOf (filteredExpenses db uid role sd ed) := by
      unfold breakdownKeys categoryAmount
      rw [sum_over_groups (expenseCategoryName db.categories)
        (filteredExpenses db uid role sd ed), hself]
    rw [hsum, div_self (ne_of_gt htot')]
    norm_num
  · intro h
    show categoryBreakdown db.categories (filteredExpenses db uid role sd ed)
        (totalAmountOf (filteredExpenses db uid role sd ed)) = []
    rw [h]
    rfl

/-- Store for the C7 witness: two expenses in two categories, 150 + 50. -/
def c7db : DB :=
  { users := [⟨1, "admin"⟩]
    teams := []
    teamMembers := []
    categories := [⟨1, "Travel"⟩, ⟨2, "Office"⟩]
    expenses := [⟨1, 1, 1, 150, "a", 20240110, .approved, some 1, some 1, none⟩,
                 ⟨2, 1, 2, 50, "b", 20240111, .approved, some 1, some 1, none⟩]
    budgets := [] }

/-- Witness for C7: 75% + 25% sums to 100 on the two-category store, and
an empty store yields an empty breakdown. -/
theorem C7_percentages_sum_witness :
    (((getExpenseAnalytics c7db 1 "admin" 20240101 20240131).category_breakdown).map
      (fun c => c.percentage)).sum = 100
    ∧ (getExpenseAnalytics ⟨[], [], [], [], [], []⟩ 1 "admin" 20240101 20240131).category_breakdown = [] := by
  have h := C7_percentages_sum c7db 1 "admin" 20240101 20240131
  have h0 := C7_percentages_sum ⟨[], [], [], [], [], []⟩ 1 "admin" 20240101 20240131
  refine ⟨h.1 (by decide) ?_, h0.2 rfl⟩
  show (0:Rat) < totalAmountOf (filteredExpenses c7db 1 "admin" 20240101 20240131)
  have hlist : filteredExpenses c7db 1 "admin" 20240101 20240131 = c7db.expenses := rfl
  rw [hlist]
  norm_num [totalAmountOf, c7db]
